import Mathlib

/-!
Shallow embedding of the workflow orchestration engine of the arXiv research
summarizer service (src/main.py).

The embedding follows the source: the orchestrator class `ArxivSummarizer`
keeps a map `active_workflows` from workflow id to a per-workflow record
(status, progress, results, optional error, timestamps).  The HTTP endpoint
`POST /api/automation/execute` allocates an id and schedules
`execute_automation_workflow` as a FastAPI background task (which runs only
after the response has been sent); the background routine registers the
Running entry, performs the paper search, dispatches to the per-type step
routine, persists the results and marks the entry completed, or marks it
failed if an exception escapes.

External collaborators (the arXiv search, the Ollama model calls, and the
filesystem write) are modelled by an `Oracle` record giving each call's
outcome; everything the orchestrator itself does with those outcomes is
embedded from the source.  `datetime.now()` is modelled by a monotone
counter threaded through the execution.
-/

/-! ### JSON values and a model of Python `json.loads`

`compare_papers_with_ollama` extracts a JSON array from the model's output
with `json.loads`.  `Json` is the decoded value; numbers keep their source
lexeme.  Object fields keep their textual order; since Python dicts keep the
last binding for a duplicated key, lookups below take the last occurrence.
-/

inductive Json where
  | jnull : Json
  | jbool (b : Bool) : Json
  | jnum (lit : String) : Json
  | jstr (s : String) : Json
  | jarr (items : List Json) : Json
  | jobj (fields : List (String × Json)) : Json

/-- JSON whitespace accepted by Python `json.loads` (space, tab, LF, CR). -/
def isJsonWs (c : Char) : Bool :=
  c = ' ' || c = '\t' || c = '\n' || c = '\r'

def skipWs : List Char → List Char
  | [] => []
  | c :: cs => if isJsonWs c then skipWs cs else c :: cs

/-- Value of one hexadecimal digit, as used in `\uXXXX` escapes. -/
def hexVal (c : Char) : Option Nat :=
  if '0' ≤ c ∧ c ≤ '9' then some (c.toNat - '0'.toNat)
  else if 'a' ≤ c ∧ c ≤ 'f' then some (c.toNat - 'a'.toNat + 10)
  else if 'A' ≤ c ∧ c ≤ 'F' then some (c.toNat - 'A'.toNat + 10)
  else none

/-- Body of a JSON string literal, after the opening quote.  Models strict
`json.loads` string decoding: the standard escapes and `\uXXXX` are accepted,
unescaped control characters are rejected.  (Deviation from CPython, noted:
surrogate pairs in `\u` escapes are not combined into one code point; no
claim depends on a string containing an astral-plane escape.) -/
def parseStringBody : Nat → List Char → List Char → Option (String × List Char)
  | 0, _, _ => none
  | Nat.succ fuel, acc, cs =>
    match cs with
    | [] => none
    | c :: rest =>
      if c = '"' then some (acc.reverse.asString, rest)
      else if c = '\\' then
        match rest with
        | [] => none
        | e :: rest2 =>
          if e = '"' then parseStringBody fuel ('"' :: acc) rest2
          else if e = '\\' then parseStringBody fuel ('\\' :: acc) rest2
          else if e = '/' then parseStringBody fuel ('/' :: acc) rest2
          else if e = 'b' then parseStringBody fuel (Char.ofNat 8 :: acc) rest2
          else if e = 'f' then parseStringBody fuel (Char.ofNat 12 :: acc) rest2
          else if e = 'n' then parseStringBody fuel ('\n' :: acc) rest2
          else if e = 'r' then parseStringBody fuel ('\r' :: acc) rest2
          else if e = 't' then parseStringBody fuel ('\t' :: acc) rest2
          else if e = 'u' then
            match rest2 with
            | h1 :: h2 :: h3 :: h4 :: rest3 =>
              match hexVal h1, hexVal h2, hexVal h3, hexVal h4 with
              | some a, some b, some c2, some d =>
                parseStringBody fuel
                  (Char.ofNat (((a * 16 + b) * 16 + c2) * 16 + d) :: acc) rest3
              | _, _, _, _ => none
            | _ => none
          else none
      else if c.toNat < 32 then none
      else parseStringBody fuel (c :: acc) rest

/-- Longest prefix of decimal digits, and the rest. -/
def takeDigits : List Char → List Char × List Char
  | [] => ([], [])
  | c :: cs =>
    if c.isDigit then
      let (d, r) := takeDigits cs
      (c :: d, r)
    else ([], c :: cs)

/-- Optional fraction part `.digits` of a JSON number. -/
def parseFrac (cs : List Char) : Option (List Char × List Char) :=
  match cs with
  | '.' :: r =>
    match takeDigits r with
    | ([], _) => none
    | (ds, r2) => some ('.' :: ds, r2)
  | _ => some ([], cs)

/-- Optional exponent part `e[+-]digits` of a JSON number. -/
def parseExp (cs : List Char) : Option (List Char × List Char) :=
  match cs with
  | [] => some ([], [])
  | c :: r =>
    if c = 'e' ∨ c = 'E' then
      let (sg, r2) :=
        match r with
        | s :: r2 => if s = '+' ∨ s = '-' then ([s], r2) else (([] : List Char), s :: r2)
        | [] => (([] : List Char), ([] : List Char))
      match takeDigits r2 with
      | ([], _) => none
      | (ds, r3) => some (c :: (sg ++ ds), r3)
    else some ([], c :: r)

/-- A JSON number literal per RFC 8259 (what strict `json.loads` accepts):
optional minus, `0` or nonzero-led digits, optional fraction, optional
exponent.  Returns the lexeme and the remaining input. -/
def parseNumber (cs : List Char) : Option (String × List Char) :=
  let (sign, cs1) :=
    match cs with
    | '-' :: r => (['-'], r)
    | _ => (([] : List Char), cs)
  match cs1 with
  | [] => none
  | c :: rest =>
    if c = '0' then
      match parseFrac rest with
      | none => none
      | some (fr, r2) =>
        match parseExp r2 with
        | none => none
        | some (ex, r3) => some ((sign ++ ['0'] ++ fr ++ ex).asString, r3)
    else if c.isDigit then
      let (ds, r1) := takeDigits rest
      match parseFrac r1 with
      | none => none
      | some (fr, r2) =>
        match parseExp r2 with
        | none => none
        | some (ex, r3) => some ((sign ++ (c :: ds) ++ fr ++ ex).asString, r3)
    else none

mutual

/-- One JSON value (fuel-indexed recursive descent). -/
def parseValue : Nat → List Char → Option (Json × List Char)
  | 0, _ => none
  | Nat.succ fuel, cs =>
    match skipWs cs with
    | [] => none
    | c :: rest =>
      if c = 'n' then
        match rest with
        | 'u' :: 'l' :: 'l' :: r => some (Json.jnull, r)
        | _ => none
      else if c = 't' then
        match rest with
        | 'r' :: 'u' :: 'e' :: r => some (Json.jbool true, r)
        | _ => none
      else if c = 'f' then
        match rest with
        | 'a' :: 'l' :: 's' :: 'e' :: r => some (Json.jbool false, r)
        | _ => none
      else if c = '"' then
        match parseStringBody (rest.length + 1) [] rest with
        | some (s, r) => some (Json.jstr s, r)
        | none => none
      else if c = '[' then
        match skipWs rest with
        | ']' :: r => some (Json.jarr [], r)
        | cs2 => parseElems fuel [] cs2
      else if c = '\x7b' then
        match skipWs rest with
        | '\x7d' :: r => some (Json.jobj [], r)
        | cs2 => parseMembers fuel [] cs2
      else if c = '-' ∨ c.isDigit then
        match parseNumber (c :: rest) with
        | some (lit, r) => some (Json.jnum lit, r)
        | none => none
      else none

/-- Comma-separated array elements up to the closing bracket. -/
def parseElems : Nat → List Json → List Char → Option (Json × List Char)
  | 0, _, _ => none
  | Nat.succ fuel, acc, cs =>
    match parseValue fuel cs with
    | none => none
    | some (v, r) =>
      match skipWs r with
      | ',' :: r2 => parseElems fuel (v :: acc) r2
      | ']' :: r2 => some (Json.jarr (v :: acc).reverse, r2)
      | _ => none

/-- Comma-separated object members up to the closing brace. -/
def parseMembers : Nat → List (String × Json) → List Char → Option (Json × List Char)
  | 0, _, _ => none
  | Nat.succ fuel, acc, cs =>
    match skipWs cs with
    | '"' :: r =>
      match parseStringBody (r.length + 1) [] r with
      | none => none
      | some (k, r1) =>
        match skipWs r1 with
        | ':' :: r2 =>
          match parseValue fuel r2 with
          | none => none
          | some (v, r3) =>
            match skipWs r3 with
            | ',' :: r4 => parseMembers fuel ((k, v) :: acc) r4
            | '\x7d' :: r4 => some (Json.jobj ((k, v) :: acc).reverse, r4)
            | _ => none
        | _ => none
    | _ => none

end

/-- Model of Python `json.loads`: one JSON document, surrounding whitespace
allowed, trailing data rejected.  `none` models a raised `JSONDecodeError`.
(CPython's non-standard `NaN` and `Infinity` literals are not modelled; no
claim involves them.) -/
def parseJson (s : String) : Option Json :=
  let cs := s.toList
  match parseValue (2 * cs.length + 2) cs with
  | some (j, r) => if skipWs r = [] then some j else none
  | none => none

/-! ### Data model: papers and comparison results -/

/-- A retrieved paper (`Paper` pydantic model): title, authors, abstract
(field `summary` in the source), link. -/
structure Paper where
  title : String
  authors : List String
  summary : String
  link : String
deriving DecidableEq

/-- Last binding of a key in a decoded JSON object, as a Python dict lookup
sees it (later duplicate keys overwrite earlier ones at decode time). -/
def jlookup (fields : List (String × Json)) (key : String) : Option Json :=
  ((fields.filter (fun kv => kv.1 = key)).getLast?).map (fun kv => kv.2)

/-- `item.get(key, "N/A")` on a decoded JSON object. -/
def jget (fields : List (String × Json)) (key : String) : Json :=
  match jlookup fields key with
  | some v => v
  | none => Json.jstr "N/A"

/-- One row of the structured comparison (the six-field dict built by
`compare_papers_with_ollama` / `_create_manual_comparison`).  Field values
are arbitrary decoded JSON values, as in the source (`item.get(...)`). -/
structure ComparisonItem where
  paper_title : Json
  research_focus : Json
  methodology : Json
  tools_techniques : Json
  advantages : Json
  limitations : Json

/-- The dict returned by `compare_papers_with_ollama`:
keys `comparison_table` and `comparison_text`. -/
structure ComparisonResult where
  comparison_table : List ComparisonItem
  comparison_text : String

/-- The `validated_item` built for one parsed dict (main.py lines 360-367). -/
def validatedItemOf (fields : List (String × Json)) : ComparisonItem :=
  { paper_title := jget fields "paper_title"
    research_focus := jget fields "research_focus"
    methodology := jget fields "methodology"
    tools_techniques := jget fields "tools_techniques"
    advantages := jget fields "advantages"
    limitations := jget fields "limitations" }

/-- The `validated_data` loop (main.py lines 357-368): keep each list element
that is a dict, projected to the six fixed fields; skip non-dict elements. -/
def validateData (items : List Json) : List ComparisonItem :=
  items.filterMap (fun j =>
    match j with
    | Json.jobj fields => some (validatedItemOf fields)
    | _ => none)

/-- `_create_manual_comparison` (main.py lines 386-403): one placeholder row
per paper, raw response text preserved. -/
def createManualComparison (papers : List Paper) (response_text : String) : ComparisonResult :=
  { comparison_table :=
      papers.map (fun p =>
        { paper_title := Json.jstr p.title
          research_focus := Json.jstr "Extracted from analysis"
          methodology := Json.jstr "Based on paper content"
          tools_techniques := Json.jstr "Detailed in research"
          advantages := Json.jstr "Key strengths identified"
          limitations := Json.jstr "Areas for improvement" })
    comparison_text := response_text }

/-- Python `str.find(ch)`: index (in code points) of the first occurrence,
`-1` if absent. -/
def charFindAux : List Char → Char → Nat → Int
  | [], _, _ => -1
  | c :: cs, t, i => if c = t then Int.ofNat i else charFindAux cs t (i + 1)

def strFind (s : String) (t : Char) : Int :=
  charFindAux s.toList t 0

/-- Index of the last occurrence of a character, if any. -/
def lastIdxAux : List Char → Char → Nat → Option Nat → Option Nat
  | [], _, _, best => best
  | c :: cs, t, i, best =>
    lastIdxAux cs t (i + 1) (if c = t then some i else best)

/-- Python `str.rfind(ch)`: index of the last occurrence, `-1` if absent. -/
def strRfind (s : String) (t : Char) : Int :=
  match lastIdxAux s.toList t 0 none with
  | some i => Int.ofNat i
  | none => -1

/-- Python slice `s[a:b]` for nonnegative bounds (the only case reachable in
`compare_papers_with_ollama`: `a` is guarded to be a found index and
`b = rfind + 1 ≥ 0`); out-of-range bounds clamp, `a ≥ b` gives the empty
string. -/
def strSlice (s : String) (a b : Int) : String :=
  (((s.toList).drop a.toNat).take (b.toNat - a.toNat)).asString

/-- The pure JSON-extraction part of `compare_papers_with_ollama`
(main.py lines 343-380), applied to the stripped model output: take the
substring from the first `[` to the last `]`, `json.loads` it; on a decoded
list return the validated six-field rows with a fixed success text; on any
parse failure (or no decoded list) fall back to `_create_manual_comparison`. -/
def comparePapersParse (papers : List Paper) (response_text : String) : ComparisonResult :=
  let start_idx := strFind response_text '['
  let end_idx := strRfind response_text ']' + 1
  if start_idx ≠ -1 ∧ end_idx ≠ -1 then
    match parseJson (strSlice response_text start_idx end_idx) with
    | some (Json.jarr items) =>
      { comparison_table := validateData items
        comparison_text := "Comparison generated successfully." }
    | some _ => createManualComparison papers response_text
    | none => createManualComparison papers response_text
  else
    createManualComparison papers response_text

/-! ### Orchestrator data model -/

/-- The closed enumeration of workflow types (`AutomationType`). -/
inductive AutomationType where
  | literature_review
  | research_gap_analysis
  | methodology_comparison
  | trend_analysis
  | custom_workflow
deriving DecidableEq

/-- The `.value` string of each enum member. -/
def automationTypeValue : AutomationType → String
  | AutomationType.literature_review => "literature_review"
  | AutomationType.research_gap_analysis => "research_gap_analysis"
  | AutomationType.methodology_comparison => "methodology_comparison"
  | AutomationType.trend_analysis => "trend_analysis"
  | AutomationType.custom_workflow => "custom_workflow"

/-- `AutomationRequest` (pydantic model). -/
structure AutomationRequest where
  query : String
  automation_type : AutomationType
  max_results : Nat := 10
  model : String := "llama3.2:3b"
  custom_instructions : Option String := none
  include_summary : Bool := true
  include_comparison : Bool := true
  include_trends : Bool := false

/-- One entry of the `AUTOMATION_WORKFLOWS` registry. -/
structure WorkflowDef where
  name : String
  description : String
  steps : List String

/-- The declarative `AUTOMATION_WORKFLOWS` registry (main.py lines 156-182),
a total function over the workflow-type enumeration. -/
def AUTOMATION_WORKFLOWS : AutomationType → WorkflowDef
  | AutomationType.literature_review =>
    { name := "Literature Review"
      description := "Comprehensive analysis of research papers including summary, comparison, and key findings"
      steps := ["search", "summarize", "compare", "synthesize"] }
  | AutomationType.research_gap_analysis =>
    { name := "Research Gap Analysis"
      description := "Identify gaps and opportunities in current research"
      steps := ["search", "compare", "gap_analysis"] }
  | AutomationType.methodology_comparison =>
    { name := "Methodology Comparison"
      description := "Detailed comparison of research methods and approaches"
      steps := ["search", "methodology_analysis", "compare"] }
  | AutomationType.trend_analysis =>
    { name := "Trend Analysis"
      description := "Analyze research trends and emerging topics"
      steps := ["search", "trend_analysis", "future_directions"] }
  | AutomationType.custom_workflow =>
    { name := "Custom Workflow"
      description := "Custom analysis based on user instructions"
      steps := ["search", "custom_analysis"] }

/-- Status strings stored in a workflow entry: "running", "completed",
"failed". -/
inductive WStatus where
  | running
  | completed
  | failed
deriving DecidableEq

/-- The `progress` dict of a workflow entry. -/
structure WProgress where
  current_step : Nat
  total_steps : Nat
  step_name : String
deriving DecidableEq

/-- A value stored in the string-keyed `results` dict of a workflow. -/
inductive RValue where
  | nat (n : Nat)
  | str (s : String)
  | papers (ps : List Paper)
  | comparison (c : ComparisonResult)

/-- The `results` dict: insertion-ordered string-keyed mapping. -/
abbrev Results := List (String × RValue)

/-- Python dict assignment `r[k] = v`: update in place if the key exists,
else append. -/
def setKey : Results → String → RValue → Results
  | [], k, v => [(k, v)]
  | (k', v') :: rest, k, v =>
    if k' = k then (k, v) :: rest else (k', v') :: setKey rest k v

/-- Python dict lookup `r.get(k)`. -/
def getKey : Results → String → Option RValue
  | [], _ => none
  | (k', v') :: rest, k => if k' = k then some v' else getKey rest k

/-- One entry of `active_workflows`: the per-workflow state dict
(main.py lines 490-496).  `error` is absent (`none`) unless set. -/
structure WorkflowData where
  status : WStatus
  progress : WProgress
  results : Results
  error : Option String
  created_at : Nat
  updated_at : Nat

/-- The `active_workflows` map: insertion-ordered dict from workflow id. -/
abbrev Workflows := List (String × WorkflowData)

def lookupW : Workflows → String → Option WorkflowData
  | [], _ => none
  | (k, d) :: rest, key => if k = key then some d else lookupW rest key

/-- Python dict assignment on `active_workflows`. -/
def setEntry : Workflows → String → WorkflowData → Workflows
  | [], k, v => [(k, v)]
  | (k', v') :: rest, k, v =>
    if k' = k then (k, v) :: rest else (k', v') :: setEntry rest k v

/-- The status endpoint `GET /api/automation/status` with a workflow id
(main.py lines 922-937): the current entry, or `none` for the HTTP 404
"Workflow not found" response. -/
def getWorkflowStatus (m : Workflows) (workflow_id : String) : Option WorkflowData :=
  lookupW m workflow_id

/-- `_update_workflow_progress` (main.py lines 621-629) at map level: if the
id is present, replace its `progress` and bump `updated_at`; otherwise do
nothing. -/
def updateWorkflowProgress (m : Workflows) (workflow_id step_name : String)
    (current total : Nat) (now : Nat) : Workflows :=
  match lookupW m workflow_id with
  | none => m
  | some d =>
    setEntry m workflow_id
      { d with progress := { current_step := current, total_steps := total, step_name := step_name }
               updated_at := now }

/-! ### External collaborators

The orchestrator treats the arXiv search, each Ollama chat call and the
results file write as opaque calls.  An `Oracle` fixes each call's outcome
for one workflow run: `Except.error` models the call raising an exception
(for chat calls, the payload is Python's `str(e)` of that exception). -/

/-- A raised `HTTPException` (status code and detail).  Its Python
`str()` — what the outer failure handler stores — is `"code: detail"`. -/
structure HExc where
  status_code : Nat
  detail : String

def strOfHExc (e : HExc) : String :=
  toString e.status_code ++ ": " ++ e.detail

/-- Outcomes of the external calls made during one workflow run.
`search` is the outcome of `search_arxiv` (which itself wraps transport
errors into `HTTPException`s — out of the orchestrator's scope per the spec);
the chat fields are outcomes of the `ollama.chat` call in each analysis
routine; `saveOk` tells whether the results file write succeeds. -/
structure Oracle where
  search : Except HExc (List Paper)
  summarizeChat : Except String String
  compareChat : Except String String
  gapChat : Except String String
  trendChat : Except String String
  customChat : Except String String
  saveOk : Bool

/-- Python `str.strip()` on model output (ASCII whitespace; the source
strings never carry the exotic Unicode spaces Python would also strip). -/
def isPyWs (c : Char) : Bool :=
  c = ' ' || c = '\t' || c = '\n' || c = '\r' || c = '\x0b' || c = '\x0c'

def pyStrip (s : String) : String :=
  (((s.toList.dropWhile isPyWs).reverse.dropWhile isPyWs).reverse).asString

/-- `summarize_with_ollama` (main.py lines 255-300): empty paper list short
circuits; a chat failure raises `HTTPException(500, "Summarization failed:
...")`; otherwise the stripped content is returned. -/
def summarizeWithOllama (o : Oracle) : List Paper → Except HExc String
  | [] => Except.ok "No papers found for summarization."
  | _ :: _ =>
    match o.summarizeChat with
    | Except.ok content => Except.ok (pyStrip content)
    | Except.error e => Except.error { status_code := 500, detail := "Summarization failed: " ++ e }

/-- `compare_papers_with_ollama` (main.py lines 302-384): empty paper list
short circuits; a chat failure raises `HTTPException(500, "Comparison
failed: ...")`; otherwise the stripped content goes through the pure JSON
extraction `comparePapersParse`. -/
def comparePapersWithOllama (o : Oracle) (papers : List Paper) : Except HExc ComparisonResult :=
  match papers with
  | [] => Except.ok { comparison_table := [], comparison_text := "No papers found for comparison." }
  | _ :: _ =>
    match o.compareChat with
    | Except.ok content => Except.ok (comparePapersParse papers (pyStrip content))
    | Except.error e => Except.error { status_code := 500, detail := "Comparison failed: " ++ e }

/-- `analyze_research_gaps` (main.py lines 405-444): never raises — a chat
failure is returned as degraded text. -/
def analyzeResearchGaps (o : Oracle) : List Paper → String
  | [] => "No papers found for gap analysis."
  | _ :: _ =>
    match o.gapChat with
    | Except.ok content => pyStrip content
    | Except.error e => "Gap analysis failed: " ++ e

/-- `analyze_trends` (main.py lines 446-484): never raises. -/
def analyzeTrends (o : Oracle) : List Paper → String
  | [] => "No papers found for trend analysis."
  | _ :: _ =>
    match o.trendChat with
    | Except.ok content => pyStrip content
    | Except.error e => "Trend analysis failed: " ++ e

/-- `_perform_custom_analysis` (main.py lines 600-619): never raises (no
empty-papers short circuit in the source; the papers only shape the prompt). -/
def performCustomAnalysis (o : Oracle) : String :=
  match o.customChat with
  | Except.ok content => pyStrip content
  | Except.error e => "Custom analysis failed: " ++ e

/-! ### Pure local synthesis steps -/

/-- `_extract_key_findings` (main.py lines 631-633); `s[:500]` is the
first-500-code-points slice. -/
def extractKeyFindings (summary gap_analysis : String) : String :=
  "Key findings synthesized from analysis:\n\nSummary Highlights:\n" ++ summary.take 500 ++
    "...\n\nGap Analysis Insights:\n" ++ gap_analysis.take 500 ++ "..."

/-- `_generate_recommendations` (main.py lines 635-637). -/
def generateRecommendations (gap_analysis : String) : String :=
  "Research recommendations based on identified gaps:\n\n" ++ gap_analysis

/-- Python `repr()` of a value decoded from JSON, with `fuel` bounding the
nesting depth (the depth is finite in any run; containers nested deeper than
the fuel are rendered as the empty string — unreachable in any claim).
Escaping inside rendered string quotes is not modelled. -/
def pyRepr : Nat → Json → String
  | 0, _ => ""
  | _ + 1, Json.jnull => "None"
  | _ + 1, Json.jbool b => if b then "True" else "False"
  | _ + 1, Json.jnum lit => lit
  | _ + 1, Json.jstr s =>
    String.singleton (Char.ofNat 39) ++ s ++ String.singleton (Char.ofNat 39)
  | fuel + 1, Json.jarr items =>
    "[" ++ String.intercalate ", " (items.map (pyRepr fuel)) ++ "]"
  | fuel + 1, Json.jobj fields =>
    "\x7b" ++
      String.intercalate ", "
        (fields.map (fun kv =>
          String.singleton (Char.ofNat 39) ++ kv.1 ++ String.singleton (Char.ofNat 39) ++
            ": " ++ pyRepr fuel kv.2)) ++ "\x7d"

/-- Python `str()` of a value decoded from JSON (as interpolated by the
f-string in `_extract_methodology_insights`): a string renders as itself,
anything else as its `repr`. -/
def pyStr (j : Json) : String :=
  match j with
  | Json.jstr s => s
  | _ => pyRepr 1000 j

/-- `_extract_methodology_insights` (main.py lines 639-645).  The
`comparison_table` key is always present on the dicts this receives, and
every row carries the six fixed keys, so the `.get` defaults are modelled by
the structure fields directly. -/
def extractMethodologyInsights (comparison : ComparisonResult) : String :=
  "Methodology Insights:\n\n" ++
    String.join (comparison.comparison_table.map (fun item =>
      "- " ++ pyStr item.paper_title ++ ": " ++ pyStr item.methodology ++ "\n"))

/-- `_extract_future_directions` (main.py lines 647-649). -/
def extractFutureDirections (trend_analysis : String) : String :=
  "Future research directions based on trends:\n\n" ++ trend_analysis

/-- `_save_workflow_results` (main.py lines 651-662): builds the filename
from the query, a timestamp and the workflow id, writes the file, and
catches ANY write failure, returning `None` — it never raises. -/
def saveWorkflowResults (saveOk : Bool) (workflow_id query : String) (timestamp : Nat)
    (_results : Results) : Option String :=
  let filename :=
    "workflows/" ++ (query.map (fun c => if c = ' ' then '_' else c)) ++ "_" ++
      toString timestamp ++ "_" ++ workflow_id ++ ".json"
  if saveOk then some filename else none

/-! ### The execution state machine

`execute_automation_workflow` mutates only its own entry of
`active_workflows` (the id is freshly generated per run), so the run is
embedded as the list of successive values taken by that entry — its trace —
starting with the Running entry registered at the top of the routine.
Applying the trace to a map with `setEntry` recovers the map view. -/

/-- In-flight execution state: the entry's current value, the snapshots so
far, and the monotone clock modelling `datetime.now()`. -/
structure ExecSt where
  d : WorkflowData
  tr : List WorkflowData
  now : Nat

/-- One `_update_workflow_progress` call from inside the execution routine
(the entry is present there, so the membership guard passes — see
`updateWorkflowProgress` for the map-level operation). -/
def pushProgress (st : ExecSt) (step_name : String) (current total : Nat) : ExecSt :=
  let d := { st.d with
               progress := { current_step := current, total_steps := total, step_name := step_name }
               updated_at := st.now }
  { d := d, tr := st.tr ++ [d], now := st.now + 1 }

/-- `_execute_literature_review` (main.py lines 544-560).  A summarize or
compare failure propagates (is returned as `Except.error`); the gap step
never fails. -/
def executeLiteratureReview (o : Oracle) (st : ExecSt) (papers : List Paper)
    (results : Results) : ExecSt × Except HExc Results :=
  let st1 := pushProgress st "Generating Summary" 2 5
  match summarizeWithOllama o papers with
  | Except.error e => (st1, Except.error e)
  | Except.ok summary =>
    let results1 := setKey results "summary" (RValue.str summary)
    let st2 := pushProgress st1 "Comparing Papers" 3 5
    match comparePapersWithOllama o papers with
    | Except.error e => (st2, Except.error e)
    | Except.ok comparison =>
      let results2 := setKey results1 "comparison" (RValue.comparison comparison)
      let st3 := pushProgress st2 "Analyzing Gaps" 4 5
      let gap_analysis := analyzeResearchGaps o papers
      let results3 := setKey results2 "gap_analysis" (RValue.str gap_analysis)
      let st4 := pushProgress st3 "Finalizing" 5 5
      (st4, Except.ok (setKey results3 "key_findings"
        (RValue.str (extractKeyFindings summary gap_analysis))))

/-- `_execute_gap_analysis` (main.py lines 562-573). -/
def executeGapAnalysisW (o : Oracle) (st : ExecSt) (papers : List Paper)
    (results : Results) : ExecSt × Except HExc Results :=
  let st1 := pushProgress st "Comparing Papers" 2 4
  match comparePapersWithOllama o papers with
  | Except.error e => (st1, Except.error e)
  | Except.ok comparison =>
    let results1 := setKey results "comparison" (RValue.comparison comparison)
    let st2 := pushProgress st1 "Analyzing Gaps" 3 4
    let gap_analysis := analyzeResearchGaps o papers
    let results2 := setKey results1 "gap_analysis" (RValue.str gap_analysis)
    let st3 := pushProgress st2 "Generating Recommendations" 4 4
    (st3, Except.ok (setKey results2 "recommendations"
      (RValue.str (generateRecommendations gap_analysis))))

/-- `_execute_methodology_comparison` (main.py lines 575-582). -/
def executeMethodologyComparison (o : Oracle) (st : ExecSt) (papers : List Paper)
    (results : Results) : ExecSt × Except HExc Results :=
  let st1 := pushProgress st "Detailed Comparison" 2 3
  match comparePapersWithOllama o papers with
  | Except.error e => (st1, Except.error e)
  | Except.ok comparison =>
    let results1 := setKey results "comparison" (RValue.comparison comparison)
    let st2 := pushProgress st1 "Methodology Analysis" 3 3
    (st2, Except.ok (setKey results1 "methodology_insights"
      (RValue.str (extractMethodologyInsights comparison))))

/-- `_execute_trend_analysis` (main.py lines 584-591); never fails. -/
def executeTrendAnalysisW (o : Oracle) (st : ExecSt) (papers : List Paper)
    (results : Results) : ExecSt × Except HExc Results :=
  let st1 := pushProgress st "Trend Analysis" 2 3
  let trend_analysis := analyzeTrends o papers
  let results1 := setKey results "trend_analysis" (RValue.str trend_analysis)
  let st2 := pushProgress st1 "Future Directions" 3 3
  (st2, Except.ok (setKey results1 "future_directions"
    (RValue.str (extractFutureDirections trend_analysis))))

/-- `_execute_custom_workflow` (main.py lines 593-598).  Python truthiness:
the step runs only when `custom_instructions` is a non-empty string. -/
def executeCustomWorkflow (o : Oracle) (st : ExecSt) (req : AutomationRequest)
    (results : Results) : ExecSt × Except HExc Results :=
  match req.custom_instructions with
  | none => (st, Except.ok results)
  | some instr =>
    if instr = "" then (st, Except.ok results)
    else
      let st1 := pushProgress st "Custom Analysis" 2 3
      (st1, Except.ok (setKey results "custom_analysis"
        (RValue.str (performCustomAnalysis o))))

/-- The Running entry registered at the top of the execution routine
(main.py lines 490-496): empty results, no error, progress
(0, 0, "Initializing"). -/
def initialEntry (t0 : Nat) : WorkflowData :=
  { status := WStatus.running
    progress := { current_step := 0, total_steps := 0, step_name := "Initializing" }
    results := []
    error := none
    created_at := t0
    updated_at := t0 }

/-- The body of `execute_automation_workflow` after the initial entry is
registered (main.py lines 498-542): search (hard-coded progress total 5),
zero-papers completion, per-type dispatch, best-effort save, completion;
any escaped exception marks the entry failed with `str(e)`. -/
def executeFromSearch (o : Oracle) (req : AutomationRequest) (workflow_id : String)
    (t0 : Nat) : List WorkflowData :=
  let st0 : ExecSt := { d := initialEntry t0, tr := [], now := t0 + 1 }
  let st1 := pushProgress st0 "Searching arXiv" 1 5
  match o.search with
  | Except.error e =>
    let dF := { st1.d with status := WStatus.failed, error := some (strOfHExc e),
                           updated_at := st1.now }
    st1.tr ++ [dF]
  | Except.ok papers =>
    match papers with
    | [] =>
      let dC := { st1.d with status := WStatus.completed,
                             error := some "No papers found for the given query" }
      st1.tr ++ [dC]
    | _ :: _ =>
      let results :=
        setKey (setKey (setKey [] "papers_found" (RValue.nat papers.length))
            "papers" (RValue.papers papers))
          "workflow_type" (RValue.str (automationTypeValue req.automation_type))
      let stepped :=
        match req.automation_type with
        | AutomationType.literature_review => executeLiteratureReview o st1 papers results
        | AutomationType.research_gap_analysis => executeGapAnalysisW o st1 papers results
        | AutomationType.methodology_comparison => executeMethodologyComparison o st1 papers results
        | AutomationType.trend_analysis => executeTrendAnalysisW o st1 papers results
        | AutomationType.custom_workflow => executeCustomWorkflow o st1 req results
      match stepped with
      | (st2, Except.error e) =>
        let dF := { st2.d with status := WStatus.failed, error := some (strOfHExc e),
                               updated_at := st2.now }
        st2.tr ++ [dF]
      | (st2, Except.ok results2) =>
        let _saved := saveWorkflowResults o.saveOk workflow_id req.query st2.now results2
        let dC := { st2.d with status := WStatus.completed, results := results2,
                               updated_at := st2.now }
        st2.tr ++ [dC]

/-- `execute_automation_workflow` (main.py lines 486-542) as the trace of
successive values of this workflow's entry, the registered Running entry
first. -/
def executeAutomationWorkflow (o : Oracle) (req : AutomationRequest)
    (workflow_id : String) (t0 : Nat) : List WorkflowData :=
  initialEntry t0 :: executeFromSearch o req workflow_id t0

/-- Apply a trace to the shared map: each snapshot is one assignment to the
workflow's entry. -/
def runTrace (m : Workflows) (workflow_id : String) : List WorkflowData → Workflows
  | [] => m
  | d :: rest => runTrace (setEntry m workflow_id d) workflow_id rest

/-- The response body of `POST /api/automation/execute`. -/
structure AutomationResponse where
  success : Bool
  workflow_id : String
  status : String
  results : Option Results
  error : Option String
  progress : Option WProgress

/-- The endpoint `POST /api/automation/execute` (main.py lines 892-920): it
generates the id, SCHEDULES `execute_automation_workflow` as a background
task — FastAPI runs background tasks only after the response is sent — and
returns.  In particular the endpoint itself performs no write to
`active_workflows`: the map at response time is unchanged. -/
def executeAutomationWorkflowEndpoint (_req : AutomationRequest) (workflow_id : String)
    (m : Workflows) : AutomationResponse × Workflows :=
  ({ success := true
     workflow_id := workflow_id
     status := "started"
     results := none
     error := none
     progress := some { current_step := 0, total_steps := 0, step_name := "Initializing" } },
   m)

/-! ### Derived views and predicates used by the stated properties -/

/-- Status of the final snapshot of a trace. -/
def lastStatus (l : List WorkflowData) : Option WStatus :=
  l.getLast?.map (fun d => d.status)

/-- Error field of the final snapshot of a trace. -/
def lastError (l : List WorkflowData) : Option (Option String) :=
  l.getLast?.map (fun d => d.error)

/-- A result value in the final snapshot of a trace. -/
def finalResultOf (l : List WorkflowData) (key : String) : Option RValue :=
  match l.getLast? with
  | some d => getKey d.results key
  | none => none

def isRunning : WStatus → Bool
  | WStatus.running => true
  | _ => false

/-- Every snapshot except possibly the last one is Running. -/
def allRunningExceptLast : List WStatus → Bool
  | [] => true
  | [_] => true
  | s :: s2 :: rest => isRunning s && allRunningExceptLast (s2 :: rest)

/-- Terminal states are absorbing along a trace: from any non-Running
snapshot on, nothing (status, results, error, progress, timestamps)
changes. -/
def terminalAbsorbing (l : List WorkflowData) : Prop :=
  ∀ i j, i ≤ j → ∀ hi : i < l.length, ∀ hj : j < l.length,
    isRunning (l.get ⟨i, hi⟩).status = false → l.get ⟨j, hj⟩ = l.get ⟨i, hi⟩

/-- A decoded JSON object carrying all six comparison fields. -/
def isSixFieldRecord : Json → Prop
  | Json.jobj fields =>
    (jlookup fields "paper_title").isSome ∧ (jlookup fields "research_focus").isSome ∧
    (jlookup fields "methodology").isSome ∧ (jlookup fields "tools_techniques").isSome ∧
    (jlookup fields "advantages").isSome ∧ (jlookup fields "limitations").isSome
  | _ => False

/-- Field-for-field agreement of one decoded record with one table row. -/
def recordMatches (j : Json) (item : ComparisonItem) : Prop :=
  ∃ fields, j = Json.jobj fields ∧
    jlookup fields "paper_title" = some item.paper_title ∧
    jlookup fields "research_focus" = some item.research_focus ∧
    jlookup fields "methodology" = some item.methodology ∧
    jlookup fields "tools_techniques" = some item.tools_techniques ∧
    jlookup fields "advantages" = some item.advantages ∧
    jlookup fields "limitations" = some item.limitations

/-- The substring `response_text[start_idx:end_idx]` that
`compare_papers_with_ollama` feeds to `json.loads`. -/
def bracketSlice (s : String) : String :=
  strSlice s (strFind s '[') (strRfind s ']' + 1)

/-! ### Concrete fixtures for witnesses and counterexamples -/

def paperA : Paper :=
  { title := "Paper A", authors := ["Ann Author"], summary := "An abstract.",
    link := "http://arxiv.org/abs/1" }

/-- A literature-review request. -/
def reqLR : AutomationRequest :=
  { query := "deep learning", automation_type := AutomationType.literature_review }

/-- All external calls succeed; the compare output has no JSON array. -/
def oracleAllOk : Oracle :=
  { search := Except.ok [paperA]
    summarizeChat := Except.ok "A summary."
    compareChat := Except.ok "Comparison prose without JSON."
    gapChat := Except.ok "Gaps."
    trendChat := Except.ok "Trends."
    customChat := Except.ok "Custom."
    saveOk := true }

/-- The paper search succeeds but returns no papers. -/
def oracleNoPapers : Oracle :=
  { oracleAllOk with search := Except.ok [] }

/-- Only the compare-step chat call raises. -/
def oracleCompareFail : Oracle :=
  { oracleAllOk with compareChat := Except.error "boom" }

/-- The compare chat succeeds but its output is unparseable even though it
contains a bracket: the first-bracket-to-last-bracket slice is empty and
fails `json.loads`. -/
def oracleBrokenJson : Oracle :=
  { oracleAllOk with compareChat := Except.ok "[broken" }

/-- A compare output that is a syntactically valid JSON array, but of
numbers, not of six-field records. -/
def numbersArrayText : String := "[1, 2]"

/-- A compare output that is a valid JSON array of one full six-field
record. -/
def recordArrayText : String :=
  "[\x7b\"paper_title\": \"T1\", \"research_focus\": \"F1\", \"methodology\": \"M1\", \"tools_techniques\": \"X1\", \"advantages\": \"A1\", \"limitations\": \"L1\"\x7d]"
/-! ### Generic lemmas -/

theorem lookupW_setEntry_self (m : Workflows) (k : String) (v : WorkflowData) :
    lookupW (setEntry m k v) k = some v := by
  induction m with
  | nil => simp [setEntry, lookupW]
  | cons kv rest ih =>
    by_cases h : kv.1 = k
    · simp [setEntry, lookupW, h]
    · cases kv with
      | mk k' v' =>
        simp only [setEntry, lookupW]
        simp only at h
        rw [if_neg h, lookupW, if_neg h]
        exact ih

theorem strRfind_add_one_ne (s : String) (c : Char) : strRfind s c + 1 ≠ -1 := by
  unfold strRfind
  cases h : lastIdxAux s.toList c 0 none with
  | none => simp
  | some i =>
    show Int.ofNat i + 1 ≠ -1
    simp only [Int.ofNat_eq_natCast]
    omega

theorem comparePapersParse_of_arr (papers : List Paper) (s : String) (items : List Json)
    (h1 : strFind s '[' ≠ -1)
    (h2 : parseJson (bracketSlice s) = some (Json.jarr items)) :
    comparePapersParse papers s =
      { comparison_table := validateData items
        comparison_text := "Comparison generated successfully." } := by
  unfold comparePapersParse
  rw [if_pos ⟨h1, strRfind_add_one_ne s ']'⟩]
  unfold bracketSlice at h2
  rw [h2]

theorem comparePapersParse_manual (papers : List Paper) (s : String)
    (h : ∀ items, ¬ (strFind s '[' ≠ -1 ∧ parseJson (bracketSlice s) = some (Json.jarr items))) :
    comparePapersParse papers s = createManualComparison papers s := by
  unfold comparePapersParse
  by_cases h1 : strFind s '[' = -1
  · rw [if_neg]
    intro hc
    exact hc.1 h1
  · rw [if_pos ⟨h1, strRfind_add_one_ne s ']'⟩]
    cases hp : parseJson (strSlice s (strFind s '[') (strRfind s ']' + 1)) with
    | none => rfl
    | some j =>
      cases j with
      | jarr items => exact absurd ⟨h1, hp⟩ (h items)
      | jnull => rfl
      | jbool b => rfl
      | jnum l => rfl
      | jstr t => rfl
      | jobj f => rfl

theorem jlookup_eq_some_jget (fields : List (String × Json)) (k : String)
    (h : (jlookup fields k).isSome) : jlookup fields k = some (jget fields k) := by
  obtain ⟨v, hv⟩ := Option.isSome_iff_exists.mp h
  rw [hv]
  simp [jget, hv]

theorem validateData_matches (items : List Json)
    (h : ∀ j ∈ items, isSixFieldRecord j) :
    List.Forall₂ recordMatches items (validateData items) := by
  induction items with
  | nil => simp [validateData]
  | cons j rest ih =>
    have hj := h j (by simp)
    cases j with
    | jobj fields =>
      have hstep : validateData (Json.jobj fields :: rest) =
          validatedItemOf fields :: validateData rest := by
        simp [validateData, List.filterMap_cons]
      rw [hstep]
      refine List.Forall₂.cons ?_ (ih (fun x hx => h x (by simp [hx])))
      rcases hj with ⟨p1, p2, p3, p4, p5, p6⟩
      exact ⟨fields, rfl, jlookup_eq_some_jget _ _ p1, jlookup_eq_some_jget _ _ p2,
        jlookup_eq_some_jget _ _ p3, jlookup_eq_some_jget _ _ p4,
        jlookup_eq_some_jget _ _ p5, jlookup_eq_some_jget _ _ p6⟩
    | jnull => exact absurd hj (by simp [isSixFieldRecord])
    | jbool b => exact absurd hj (by simp [isSixFieldRecord])
    | jnum l => exact absurd hj (by simp [isSixFieldRecord])
    | jstr t => exact absurd hj (by simp [isSixFieldRecord])
    | jarr xs => exact absurd hj (by simp [isSixFieldRecord])

theorem allRunningExceptLast_get (l : List WorkflowData)
    (h : allRunningExceptLast (l.map (fun d => d.status)) = true) :
    ∀ i, ∀ hi : i < l.length, i + 1 < l.length →
      isRunning (l.get ⟨i, hi⟩).status = true := by
  induction l with
  | nil => intro i hi; simp at hi
  | cons a t ih =>
    intro i hi hlt
    cases t with
    | nil => simp at hlt
    | cons b t2 =>
      simp only [List.map_cons] at h
      rw [allRunningExceptLast] at h
      rw [Bool.and_eq_true] at h
      rcases h with ⟨ha, hrest⟩
      cases i with
      | zero => simpa using ha
      | succ n =>
        have hn : n < (b :: t2).length := by
          simp at hi ⊢
          omega
        have hn1 : n + 1 < (b :: t2).length := by
          simp at hlt ⊢
          omega
        have := ih (by simpa using hrest) n hn hn1
        simpa using this

theorem terminalAbsorbing_of_allRunning (l : List WorkflowData)
    (h : allRunningExceptLast (l.map (fun d => d.status)) = true) :
    terminalAbsorbing l := by
  intro i j hij hi hj hterm
  have hni : ¬ (i + 1 < l.length) := by
    intro hlt
    have := allRunningExceptLast_get l h i hi hlt
    rw [hterm] at this
    exact Bool.false_ne_true this
  have hji : j = i := by omega
  subst hji
  rfl

theorem execTraceFacts (o : Oracle) (req : AutomationRequest) (workflow_id : String) (t0 : Nat) :
    allRunningExceptLast
        ((executeAutomationWorkflow o req workflow_id t0).map (fun d => d.status)) = true ∧
    List.Chain' (fun a b => a ≤ b)
      ((executeAutomationWorkflow o req workflow_id t0).map (fun d => d.progress.current_step)) ∧
    (∀ d ∈ executeAutomationWorkflow o req workflow_id t0,
      d.progress.current_step ≤ d.progress.total_steps) ∧
    (∀ d ∈ executeAutomationWorkflow o req workflow_id t0,
      (d.error ≠ none →
        d.status = WStatus.failed ∨
          (d.status = WStatus.completed ∧ d.error = some "No papers found for the given query")) ∧
      (d.status = WStatus.running → d.error = none)) := by
  rcases o with ⟨osearch, osum, ocmp, ogap, otr, ocus, osv⟩
  rcases req with ⟨q, ty, mx, mdl, ci, i1, i2, i3⟩
  rcases osearch with e | papers
  · simp [executeAutomationWorkflow, executeFromSearch, pushProgress, initialEntry,
      allRunningExceptLast, isRunning, List.forall_mem_cons]
  · rcases papers with _ | ⟨p, ps⟩
    · simp [executeAutomationWorkflow, executeFromSearch, pushProgress, initialEntry,
        allRunningExceptLast, isRunning, List.forall_mem_cons]
    · cases ty
      case literature_review =>
        rcases osum with es | ss
        · simp [executeAutomationWorkflow, executeFromSearch, pushProgress, initialEntry,
            executeLiteratureReview, summarizeWithOllama, comparePapersWithOllama,
            analyzeResearchGaps, allRunningExceptLast, isRunning, List.forall_mem_cons]
        · rcases ocmp with ec | sc <;>
            simp [executeAutomationWorkflow, executeFromSearch, pushProgress, initialEntry,
              executeLiteratureReview, summarizeWithOllama, comparePapersWithOllama,
              analyzeResearchGaps, allRunningExceptLast, isRunning, List.forall_mem_cons]
      case research_gap_analysis =>
        rcases ocmp with ec | sc <;>
          simp [executeAutomationWorkflow, executeFromSearch, pushProgress, initialEntry,
            executeGapAnalysisW, comparePapersWithOllama, analyzeResearchGaps,
            allRunningExceptLast, isRunning, List.forall_mem_cons]
      case methodology_comparison =>
        rcases ocmp with ec | sc <;>
          simp [executeAutomationWorkflow, executeFromSearch, pushProgress, initialEntry,
            executeMethodologyComparison, comparePapersWithOllama,
            allRunningExceptLast, isRunning, List.forall_mem_cons]
      case trend_analysis =>
        simp [executeAutomationWorkflow, executeFromSearch, pushProgress, initialEntry,
          executeTrendAnalysisW, analyzeTrends, allRunningExceptLast, isRunning,
          List.forall_mem_cons]
      case custom_workflow =>
        rcases ci with _ | ⟨instr⟩
        · simp [executeAutomationWorkflow, executeFromSearch, pushProgress, initialEntry,
            executeCustomWorkflow, allRunningExceptLast, isRunning, List.forall_mem_cons]
        · rcases eq_or_ne instr "" with hemp | hemp <;>
            simp [executeAutomationWorkflow, executeFromSearch, pushProgress, initialEntry,
              executeCustomWorkflow, performCustomAnalysis, hemp, allRunningExceptLast,
              isRunning, List.forall_mem_cons]

/-- C1 (counterexample): the start endpoint returns without writing to the
workflow map, so a status query racing ahead of the background task gets
NotFound (404), not the claimed Running state. -/
theorem claim_c1_counterexample :
    (executeAutomationWorkflowEndpoint reqLR "wf1" []).2 = [] ∧
    getWorkflowStatus (executeAutomationWorkflowEndpoint reqLR "wf1" []).2 "wf1" = none :=
  ⟨rfl, rfl⟩

/-- C1 (amended): the Running state with progress (0, 0, "Initializing") is
registered as the FIRST action of the background execution routine, not by
the endpoint; once that first action has run, a status query returns it. -/
theorem claim_c1_amended (o : Oracle) (req : AutomationRequest) (workflow_id : String)
    (t0 : Nat) (m : Workflows) :
    (executeAutomationWorkflowEndpoint req workflow_id m).2 = m ∧
    (executeAutomationWorkflow o req workflow_id t0).head? = some (initialEntry t0) ∧
    (initialEntry t0).status = WStatus.running ∧
    (initialEntry t0).progress =
      { current_step := 0, total_steps := 0, step_name := "Initializing" } ∧
    (initialEntry t0).results = [] ∧
    getWorkflowStatus (runTrace m workflow_id [initialEntry t0]) workflow_id =
      some (initialEntry t0) := by
  refine ⟨rfl, rfl, rfl, rfl, rfl, ?_⟩
  simp [runTrace, getWorkflowStatus, lookupW_setEntry_self]

/-- C3: a search that returns zero papers completes the workflow (status
"completed", not "failed") with the explanatory note and an empty results
mapping, and the trace stops there: three snapshots, no progress past the
search step. -/
theorem claim_c3 (o : Oracle) (req : AutomationRequest) (workflow_id : String) (t0 : Nat)
    (h : o.search = Except.ok []) :
    lastStatus (executeAutomationWorkflow o req workflow_id t0) = some WStatus.completed ∧
    lastError (executeAutomationWorkflow o req workflow_id t0) =
      some (some "No papers found for the given query") ∧
    (executeAutomationWorkflow o req workflow_id t0).getLast?.map (fun d => d.results) =
      some [] ∧
    (executeAutomationWorkflow o req workflow_id t0).length = 3 ∧
    ∀ d ∈ executeAutomationWorkflow o req workflow_id t0, d.progress.current_step ≤ 1 := by
  rcases o with ⟨osearch, osum, ocmp, ogap, otr, ocus, osv⟩
  simp only at h
  subst h
  refine ⟨rfl, rfl, rfl, rfl, ?_⟩
  simp [executeAutomationWorkflow, executeFromSearch, pushProgress, initialEntry,
    List.forall_mem_cons, lastStatus, lastError]

/-- C3 (witness): the zero-papers oracle satisfies the hypothesis and the
workflow completes. -/
theorem claim_c3_witness :
    oracleNoPapers.search = Except.ok [] ∧
    lastStatus (executeAutomationWorkflow oracleNoPapers reqLR "w3" 0) =
      some WStatus.completed :=
  ⟨rfl, (claim_c3 oracleNoPapers reqLR "w3" 0 rfl).1⟩

/-- C4 (counterexample): the zero-papers outcome is a Completed state whose
error field IS set, contradicting "error is set only when Failed". -/
theorem claim_c4_counterexample :
    (executeAutomationWorkflow oracleNoPapers reqLR "w4" 0).getLast?.map
        (fun d => (d.status, d.error)) =
      some (WStatus.completed, some "No papers found for the given query") :=
  rfl

/-- C4 (amended): in every reachable snapshot, a set error field means the
status is Failed OR it is the zero-papers outcome — Completed with the fixed
explanatory note in the error field; Running snapshots never carry an
error. -/
theorem claim_c4_amended (o : Oracle) (req : AutomationRequest) (workflow_id : String)
    (t0 : Nat) :
    ∀ d ∈ executeAutomationWorkflow o req workflow_id t0,
      (d.error ≠ none →
        d.status = WStatus.failed ∨
          (d.status = WStatus.completed ∧
            d.error = some "No papers found for the given query")) ∧
      (d.status = WStatus.running → d.error = none) :=
  (execTraceFacts o req workflow_id t0).2.2.2

/-- C4 (witness): instantiation at the registered initial snapshot. -/
theorem claim_c4_witness :
    initialEntry 0 ∈ executeAutomationWorkflow oracleNoPapers reqLR "w4b" 0 ∧
    ((initialEntry 0).status = WStatus.running → (initialEntry 0).error = none) := by
  have hm : initialEntry 0 ∈ executeAutomationWorkflow oracleNoPapers reqLR "w4b" 0 :=
    List.mem_cons_self _ _
  exact ⟨hm, (claim_c4_amended oracleNoPapers reqLR "w4b" 0 (initialEntry 0) hm).2⟩

/-- C6: across any single workflow's lifetime, the reported current-step
index is monotonically non-decreasing and never exceeds the reported
total-step count. -/
theorem claim_c6 (o : Oracle) (req : AutomationRequest) (workflow_id : String) (t0 : Nat) :
    List.Chain' (fun a b => a ≤ b)
      ((executeAutomationWorkflow o req workflow_id t0).map (fun d => d.progress.current_step)) ∧
    ∀ d ∈ executeAutomationWorkflow o req workflow_id t0,
      d.progress.current_step ≤ d.progress.total_steps :=
  ⟨(execTraceFacts o req workflow_id t0).2.1, (execTraceFacts o req workflow_id t0).2.2.1⟩

/-- C6 (witness): instantiation at the registered initial snapshot. -/
theorem claim_c6_witness :
    initialEntry 0 ∈ executeAutomationWorkflow oracleAllOk reqLR "w6" 0 ∧
    (initialEntry 0).progress.current_step ≤ (initialEntry 0).progress.total_steps := by
  have hm : initialEntry 0 ∈ executeAutomationWorkflow oracleAllOk reqLR "w6" 0 :=
    List.mem_cons_self _ _
  exact ⟨hm, (claim_c6 oracleAllOk reqLR "w6" 0).2 (initialEntry 0) hm⟩

/-- C7: terminal snapshots are absorbing — once a snapshot is not Running
(Completed or Failed), every later point of the trace is that very
snapshot: nothing (status, results, error, progress, timestamps) changes
again. -/
theorem claim_c7 (o : Oracle) (req : AutomationRequest) (workflow_id : String) (t0 : Nat) :
    terminalAbsorbing (executeAutomationWorkflow o req workflow_id t0) :=
  terminalAbsorbing_of_allRunning _ (execTraceFacts o req workflow_id t0).1

/-- C7 (witness): the zero-papers trace has a terminal snapshot at index 2
and the theorem applies there. -/
theorem claim_c7_witness :
    isRunning ((executeAutomationWorkflow oracleNoPapers reqLR "w7" 0).get
        ⟨2, by decide⟩).status = false ∧
    (executeAutomationWorkflow oracleNoPapers reqLR "w7" 0).get ⟨2, by decide⟩ =
      (executeAutomationWorkflow oracleNoPapers reqLR "w7" 0).get ⟨2, by decide⟩ :=
  ⟨by rfl, claim_c7 oracleNoPapers reqLR "w7" 0 2 2 (le_refl 2) (by decide) (by decide) (by rfl)⟩

/-- C9: the state trace of a run is independent of whether the results-file
write succeeds — `_save_workflow_results` never raises — so a workflow that
completes its steps still ends Completed when the write fails, the failure
being only logged. -/
theorem claim_c9 (o : Oracle) (req : AutomationRequest) (workflow_id : String) (t0 : Nat)
    (b : Bool) :
    executeAutomationWorkflow { o with saveOk := b } req workflow_id t0 =
      executeAutomationWorkflow o req workflow_id t0 ∧
    saveWorkflowResults false workflow_id req.query t0 [] = none ∧
    (lastStatus (executeAutomationWorkflow o req workflow_id t0) = some WStatus.completed →
      lastStatus (executeAutomationWorkflow { o with saveOk := false } req workflow_id t0) =
        some WStatus.completed) := by
  have hb : ∀ b' : Bool,
      executeAutomationWorkflow { o with saveOk := b' } req workflow_id t0 =
        executeAutomationWorkflow o req workflow_id t0 := by
    intro b'
    rcases o with ⟨osearch, osum, ocmp, ogap, otr, ocus, osv⟩
    rfl
  refine ⟨hb b, rfl, fun h => ?_⟩
  rw [hb false]
  exact h

/-- C9 (witness): the all-ok literature review completes, and still
completes with the write failing. -/
theorem claim_c9_witness :
    lastStatus (executeAutomationWorkflow oracleAllOk reqLR "w9" 0) = some WStatus.completed ∧
    lastStatus (executeAutomationWorkflow { oracleAllOk with saveOk := false } reqLR "w9" 0) =
      some WStatus.completed :=
  ⟨rfl, (claim_c9 oracleAllOk reqLR "w9" 0 false).2.2 rfl⟩

/-- C10: a progress update for an id that is not in the map is a silent
no-op: no error, no new entry, the map is returned unchanged. -/
theorem claim_c10 (m : Workflows) (workflow_id step_name : String) (current total now : Nat)
    (h : lookupW m workflow_id = none) :
    updateWorkflowProgress m workflow_id step_name current total now = m := by
  unfold updateWorkflowProgress
  rw [h]

/-- C10 (witness): the empty map does not contain "nope". -/
theorem claim_c10_witness :
    lookupW [] "nope" = none ∧
    updateWorkflowProgress [] "nope" "Some Step" 1 5 0 = [] :=
  ⟨rfl, claim_c10 [] "nope" "Some Step" 1 5 0 rfl⟩

/-- C2 (counterexample): with only the compare-step chat call raising, the
literature-review workflow ends Failed (the claim says it would still reach
Completed with a placeholder comparison). -/
theorem claim_c2_counterexample :
    (executeAutomationWorkflow oracleCompareFail reqLR "w2" 0).getLast?.map
        (fun d => (d.status, d.error)) =
      some (WStatus.failed, some "500: Comparison failed: boom") :=
  rfl

/-- C2 (amended): a RAISED Analyzer call in the compare step fails the whole
literature-review workflow; a compare output that succeeds but is
unparseable — its first-bracket-to-last-bracket slice does not decode as a
JSON list — is degraded to the placeholder comparison, and the workflow
completes with all other step results present and un-degraded. -/
theorem claim_c2_amended (o : Oracle) (req : AutomationRequest) (workflow_id : String)
    (t0 : Nat) (p : Paper) (ps : List Paper) :
    (∀ e s, req.automation_type = AutomationType.literature_review →
      o.search = Except.ok (p :: ps) →
      o.summarizeChat = Except.ok s →
      o.compareChat = Except.error e →
      lastStatus (executeAutomationWorkflow o req workflow_id t0) = some WStatus.failed ∧
      lastError (executeAutomationWorkflow o req workflow_id t0) =
        some (some (strOfHExc { status_code := 500, detail := "Comparison failed: " ++ e }))) ∧
    (∀ s c g, req.automation_type = AutomationType.literature_review →
      o.search = Except.ok (p :: ps) →
      o.summarizeChat = Except.ok s →
      o.compareChat = Except.ok c →
      o.gapChat = Except.ok g →
      (∀ items, ¬ (strFind (pyStrip c) '[' ≠ -1 ∧
        parseJson (bracketSlice (pyStrip c)) = some (Json.jarr items))) →
      lastStatus (executeAutomationWorkflow o req workflow_id t0) = some WStatus.completed ∧
      finalResultOf (executeAutomationWorkflow o req workflow_id t0) "comparison" =
        some (RValue.comparison (createManualComparison (p :: ps) (pyStrip c))) ∧
      finalResultOf (executeAutomationWorkflow o req workflow_id t0) "summary" =
        some (RValue.str (pyStrip s)) ∧
      finalResultOf (executeAutomationWorkflow o req workflow_id t0) "gap_analysis" =
        some (RValue.str (pyStrip g)) ∧
      finalResultOf (executeAutomationWorkflow o req workflow_id t0) "key_findings" =
        some (RValue.str (extractKeyFindings (pyStrip s) (pyStrip g)))) := by
  rcases o with ⟨osearch, osum, ocmp, ogap, otr, ocus, osv⟩
  rcases req with ⟨q, ty, mx, mdl, ci, i1, i2, i3⟩
  constructor
  · intro e s hty hs hsum hcmp
    simp only at hty hs hsum hcmp
    subst hty
    subst hs
    subst hsum
    subst hcmp
    constructor <;>
      simp [executeAutomationWorkflow, executeFromSearch, pushProgress, initialEntry,
        executeLiteratureReview, summarizeWithOllama, comparePapersWithOllama, strOfHExc,
        lastStatus, lastError]
  · intro s c g hty hs hsum hcmp hgap hnl
    simp only at hty hs hsum hcmp hgap
    subst hty
    subst hs
    subst hsum
    subst hcmp
    subst hgap
    have hman : comparePapersParse (p :: ps) (pyStrip c) =
        createManualComparison (p :: ps) (pyStrip c) :=
      comparePapersParse_manual _ _ hnl
    refine ⟨?_, ?_, ?_, ?_, ?_⟩ <;>
      simp [executeAutomationWorkflow, executeFromSearch, pushProgress, initialEntry,
        executeLiteratureReview, summarizeWithOllama, comparePapersWithOllama,
        analyzeResearchGaps, hman, lastStatus, finalResultOf, setKey, getKey]

/-- C2 (witness): both branches instantiated — the failing-compare run, a
completed run whose compare output has no bracket at all, and a completed
run whose compare output "[broken" contains a bracket but still fails to
decode as a list. -/
theorem claim_c2_witness :
    lastStatus (executeAutomationWorkflow oracleCompareFail reqLR "wc2" 0) =
      some WStatus.failed ∧
    lastStatus (executeAutomationWorkflow oracleAllOk reqLR "wc2b" 0) =
      some WStatus.completed ∧
    finalResultOf (executeAutomationWorkflow oracleAllOk reqLR "wc2b" 0) "comparison" =
      some (RValue.comparison
        (createManualComparison [paperA] "Comparison prose without JSON.")) ∧
    lastStatus (executeAutomationWorkflow oracleBrokenJson reqLR "wc2c" 0) =
      some WStatus.completed ∧
    finalResultOf (executeAutomationWorkflow oracleBrokenJson reqLR "wc2c" 0) "comparison" =
      some (RValue.comparison (createManualComparison [paperA] "[broken")) := by
  have hnb : ∀ items, ¬ (strFind (pyStrip "Comparison prose without JSON.") '[' ≠ -1 ∧
      parseJson (bracketSlice (pyStrip "Comparison prose without JSON.")) =
        some (Json.jarr items)) :=
    fun items hc => hc.1 (by decide)
  have hbr : ∀ items, ¬ (strFind (pyStrip "[broken") '[' ≠ -1 ∧
      parseJson (bracketSlice (pyStrip "[broken")) = some (Json.jarr items)) := by
    intro items hc
    have hnone : parseJson (bracketSlice (pyStrip "[broken")) = none := rfl
    rw [hnone] at hc
    exact Option.noConfusion hc.2
  refine ⟨?_, ?_, ?_, ?_, ?_⟩
  · exact ((claim_c2_amended oracleCompareFail reqLR "wc2" 0 paperA []).1 "boom"
      "A summary." rfl rfl rfl rfl).1
  · exact ((claim_c2_amended oracleAllOk reqLR "wc2b" 0 paperA []).2
      "A summary." "Comparison prose without JSON." "Gaps." rfl rfl rfl rfl rfl hnb).1
  · exact ((claim_c2_amended oracleAllOk reqLR "wc2b" 0 paperA []).2
      "A summary." "Comparison prose without JSON." "Gaps." rfl rfl rfl rfl rfl hnb).2.1
  · exact ((claim_c2_amended oracleBrokenJson reqLR "wc2c" 0 paperA []).2
      "A summary." "[broken" "Gaps." rfl rfl rfl rfl rfl hbr).1
  · exact ((claim_c2_amended oracleBrokenJson reqLR "wc2c" 0 paperA []).2
      "A summary." "[broken" "Gaps." rfl rfl rfl rfl rfl hbr).2.1

/-- C5 (counterexample): the literature-review registry entry lists 4 steps
and no gap-analysis step, while the execution routine reports 5 steps
(reaching 5 of 5) including an "Analyzing Gaps" step — the claimed
consistency fails. -/
theorem claim_c5_counterexample :
    ((AUTOMATION_WORKFLOWS AutomationType.literature_review).steps.length = 4 ∧
      "gap_analysis" ∉ (AUTOMATION_WORKFLOWS AutomationType.literature_review).steps) ∧
    (executeAutomationWorkflow oracleAllOk reqLR "w5" 0).map
        (fun d => (d.progress.current_step, d.progress.total_steps)) =
      [(0, 0), (1, 5), (2, 5), (3, 5), (4, 5), (5, 5), (5, 5)] :=
  ⟨⟨rfl, by decide⟩, rfl⟩

/-- C5 (amended): the literature-review execution routine reports its own
five steps — Searching arXiv, Generating Summary, Comparing Papers,
Analyzing Gaps, Finalizing — while the declarative registry entry lists only
the four step kinds search, summarize, compare, synthesize; the two are NOT
consistent (the registry omits the gap-analysis step and has a different
step count). -/
theorem claim_c5_amended (o : Oracle) (req : AutomationRequest) (workflow_id : String)
    (t0 : Nat) (p : Paper) (ps : List Paper) (s c : String)
    (hty : req.automation_type = AutomationType.literature_review)
    (hs : o.search = Except.ok (p :: ps))
    (hsum : o.summarizeChat = Except.ok s)
    (hcmp : o.compareChat = Except.ok c) :
    (executeAutomationWorkflow o req workflow_id t0).map
        (fun d => (d.progress.step_name, d.progress.current_step, d.progress.total_steps)) =
      [("Initializing", 0, 0), ("Searching arXiv", 1, 5), ("Generating Summary", 2, 5),
        ("Comparing Papers", 3, 5), ("Analyzing Gaps", 4, 5), ("Finalizing", 5, 5),
        ("Finalizing", 5, 5)] ∧
    (AUTOMATION_WORKFLOWS AutomationType.literature_review).steps =
      ["search", "summarize", "compare", "synthesize"] ∧
    (AUTOMATION_WORKFLOWS AutomationType.literature_review).steps.length ≠ 5 := by
  rcases o with ⟨osearch, osum, ocmp, ogap, otr, ocus, osv⟩
  rcases req with ⟨q, ty, mx, mdl, ci, i1, i2, i3⟩
  simp only at hty hs hsum hcmp
  subst hty
  subst hs
  subst hsum
  subst hcmp
  refine ⟨?_, rfl, by decide⟩
  simp [executeAutomationWorkflow, executeFromSearch, pushProgress, initialEntry,
    executeLiteratureReview, summarizeWithOllama, comparePapersWithOllama,
    analyzeResearchGaps]

/-- C5 (witness): instantiation at the all-ok literature-review run. -/
theorem claim_c5_witness :
    (executeAutomationWorkflow oracleAllOk reqLR "w5b" 0).map
        (fun d => (d.progress.step_name, d.progress.current_step, d.progress.total_steps)) =
      [("Initializing", 0, 0), ("Searching arXiv", 1, 5), ("Generating Summary", 2, 5),
        ("Comparing Papers", 3, 5), ("Analyzing Gaps", 4, 5), ("Finalizing", 5, 5),
        ("Finalizing", 5, 5)] :=
  (claim_c5_amended oracleAllOk reqLR "w5b" 0 paperA [] "A summary."
    "Comparison prose without JSON." rfl rfl rfl rfl).1

/-- C8 (counterexample): the output "[1, 2]" decodes to a JSON array that is
NOT a list of six-field records, so by the claim the table should be one
placeholder row per paper with the raw text preserved; the code instead
returns an EMPTY table with the fixed success text. -/
theorem claim_c8_counterexample :
    parseJson numbersArrayText = some (Json.jarr [Json.jnum "1", Json.jnum "2"]) ∧
    comparePapersParse [paperA] numbersArrayText =
      { comparison_table := [], comparison_text := "Comparison generated successfully." } ∧
    (createManualComparison [paperA] numbersArrayText).comparison_table.length = 1 :=
  ⟨rfl, rfl, rfl⟩

/-- C8 (amended): the code keys on whether the first-bracket-to-last-bracket
substring decodes as a JSON LIST (of anything): if so, the table is the
six-field projection of its dict elements (field-for-field equal to the list
when every element is a record with all six fields) with the fixed success
text; only if that substring fails to decode as a list does the result fall
back to one placeholder row per paper with the raw text preserved. -/
theorem claim_c8_amended (papers : List Paper) (s : String) :
    (∀ items, strFind s '[' ≠ -1 →
      parseJson (bracketSlice s) = some (Json.jarr items) →
      comparePapersParse papers s =
        { comparison_table := validateData items
          comparison_text := "Comparison generated successfully." } ∧
      ((∀ j ∈ items, isSixFieldRecord j) →
        List.Forall₂ recordMatches items (comparePapersParse papers s).comparison_table)) ∧
    ((∀ items, ¬ (strFind s '[' ≠ -1 ∧ parseJson (bracketSlice s) = some (Json.jarr items))) →
      comparePapersParse papers s = createManualComparison papers s ∧
      (comparePapersParse papers s).comparison_table.length = papers.length ∧
      (comparePapersParse papers s).comparison_text = s) := by
  constructor
  · intro items h1 h2
    have he := comparePapersParse_of_arr papers s items h1 h2
    refine ⟨he, fun hrec => ?_⟩
    rw [he]
    exact validateData_matches items hrec
  · intro h
    have he := comparePapersParse_manual papers s h
    rw [he]
    exact ⟨rfl, by simp [createManualComparison], rfl⟩

set_option maxRecDepth 8000 in
/-- C8 (witness): both branches instantiated — a full six-field record array
is reproduced field-for-field, and bracket-free prose falls back to the
per-paper placeholder with the text preserved. -/
theorem claim_c8_witness :
    comparePapersParse [paperA] recordArrayText =
      { comparison_table :=
          [{ paper_title := Json.jstr "T1", research_focus := Json.jstr "F1",
             methodology := Json.jstr "M1", tools_techniques := Json.jstr "X1",
             advantages := Json.jstr "A1", limitations := Json.jstr "L1" }]
        comparison_text := "Comparison generated successfully." } ∧
    comparePapersParse [paperA] "prose only" = createManualComparison [paperA] "prose only" := by
  constructor
  · exact ((claim_c8_amended [paperA] recordArrayText).1
      [Json.jobj [("paper_title", Json.jstr "T1"), ("research_focus", Json.jstr "F1"),
        ("methodology", Json.jstr "M1"), ("tools_techniques", Json.jstr "X1"),
        ("advantages", Json.jstr "A1"), ("limitations", Json.jstr "L1")]]
      (by decide) rfl).1
  · exact ((claim_c8_amended [paperA] "prose only").2
      (fun items hc => hc.1 (by decide))).1
